import Mathlib

/-
Verification of the logging configuration package `router/pkg/logging`
(file `logging.go`) against its natural-language specification.

The Go package is shallowly embedded below:
  - `Params` mirrors the `Params` struct;
  - `Env` makes the ambient OS state (`os.Hostname`, `os.Getpid`, and
    whether opening the log file would fail) an explicit argument;
  - `New`, `newZapCore`, `newZapLogger`, `attachBaseFields`,
    `ZapLogLevelFromString` and `WithRequestID` are translated one-to-one;
  - the `EncodeTime` closure installed by `ZapJsonEncoder` performs Go
    float64 (IEEE binary64) arithmetic; it is modelled exactly with
    unnormalized integer fractions (`Q`) and round-to-nearest-even at a
    53-bit significand, so every theorem about it is about the real
    rounding behaviour of the source expression
    `int64(math.Trunc(float64(nanos) / float64(time.Millisecond)))`.
-/

/-! ## Exact model of Go float64 (IEEE binary64) arithmetic -/

/-- Fuel-driven base-2 logarithm on `Nat` (structural recursion so that the
kernel can evaluate it on literals). `l2go fuel n` is `⌊log2 n⌋` whenever
`n ≥ 1` and `fuel` is at least the bit length of `n`. -/
def l2go : Nat → Nat → Nat
  | 0, _ => 0
  | f + 1, n => if n < 2 then 0 else l2go f (n / 2) + 1

/-- Base-2 logarithm for naturals of at most 128 bits; every quantity
appearing in the embedded timestamp computation is an `int64` or a ratio of
such, so 128 bits of fuel always suffice. -/
def nlog2 (n : Nat) : Nat := l2go 128 n

/-- Exact rational number as an unnormalized fraction. Every constructor
application below keeps `den > 0`; no gcd normalization is performed, which
keeps all operations kernel-evaluable pure integer arithmetic. -/
structure Q where
  num : Int
  den : Int
deriving DecidableEq

/-- Negation of an exact fraction. -/
def Q.neg (q : Q) : Q := ⟨-q.num, q.den⟩

/-- Embed an integer as an exact fraction. -/
def Q.ofInt (i : Int) : Q := ⟨i, 1⟩

/-- Multiply an exact fraction by `2^e` for a (possibly negative) integer
exponent `e`. -/
def Q.shift (q : Q) (e : Int) : Q :=
  if 0 ≤ e then ⟨q.num * 2 ^ e.toNat, q.den⟩ else ⟨q.num, q.den * 2 ^ (-e).toNat⟩

/-- Whether `1 ≤ q` (for `q` with positive denominator). -/
def Q.oneLe (q : Q) : Bool := decide (q.den ≤ q.num)

/-- Divide an exact fraction by a positive integer. -/
def Q.divByPos (q : Q) (m : Int) : Q := ⟨q.num, q.den * m⟩

/-- Round an exact fraction (with positive denominator) to the nearest
integer, ties to even: the rounding used by IEEE binary64 arithmetic. -/
def rne (q : Q) : Int :=
  let f := q.num.fdiv q.den
  let r := q.num - f * q.den
  if 2 * r < q.den then f
  else if q.den < 2 * r then f + 1
  else if f % 2 = 0 then f else f + 1

/-- Largest `e : Int` with `2^e ≤ q`, for a positive exact fraction `q`
whose numerator and denominator fit in 128 bits. The estimate from the
integer logarithms of numerator and denominator is off by at most one and
is fixed up by direct comparison. -/
def qfloorLog2 (q : Q) : Int :=
  let e0 : Int := (nlog2 q.num.natAbs : Int) - (nlog2 q.den.natAbs : Int)
  if (q.shift (-(e0 + 1))).oneLe then e0 + 1
  else if (q.shift (-e0)).oneLe then e0
  else e0 - 1

/-- Exact value of the IEEE binary64 double nearest to the positive exact
fraction `q` (round to nearest, ties to even, 53-bit significand; the
exponent range plays no role for the int64-sized inputs that occur here). -/
def roundDoublePos (q : Q) : Q :=
  let e := qfloorLog2 q
  Q.shift ⟨rne (q.shift (52 - e)), 1⟩ (e - 52)

/-- Exact value of the IEEE binary64 double nearest to the exact fraction
`q` (round to nearest, ties to even). -/
def roundDouble (q : Q) : Q :=
  if q.num = 0 then ⟨0, 1⟩
  else if 0 < q.num then roundDoublePos q
  else (roundDoublePos q.neg).neg

/-- Truncation toward zero of an exact fraction to an integer: the
combined effect of Go `math.Trunc` followed by the `int64` conversion on an
in-range double. -/
def qtrunc (q : Q) : Int :=
  if 0 ≤ q.num then q.num.fdiv q.den else -((-q.num).fdiv q.den)

/-! ## Zap severity levels (constants of `go.uber.org/zap/zapcore`) -/

/-- Value of `zapcore.DebugLevel`. -/
def zapDebugLevel : Int := -1

/-- Value of `zapcore.InfoLevel`. -/
def zapInfoLevel : Int := 0

/-- Value of `zapcore.WarnLevel`. -/
def zapWarnLevel : Int := 1

/-- Value of `zapcore.ErrorLevel`. -/
def zapErrorLevel : Int := 2

/-- Value of `zapcore.DPanicLevel`. -/
def zapDPanicLevel : Int := 3

/-- Value of `zapcore.PanicLevel`. -/
def zapPanicLevel : Int := 4

/-- Value of `zapcore.FatalLevel`. -/
def zapFatalLevel : Int := 5

/-! ## Data model of the logging package -/

/-- Mirror of the Go struct `Params` (`logging.go`), field for field.
`level` is a zap level value (see the constants above). -/
structure Params where
  prettyLogging : Bool
  debug : Bool
  level : Int
  enableFileLogging : Bool
  logFileName : String
  maxSize : Int
deriving DecidableEq

/-- Ambient OS state consulted by the package, made explicit. `hostname` is
the result of `os.Hostname` (`none` means the lookup fails), `pid` the
result of `os.Getpid`. `fileOpenFails` records whether opening or creating
the configured log file would fail; the source never consults this during
`New` (the `lumberjack.Logger` rotating writer is built as a plain struct
literal and opens the file lazily at first write), which the theorems below
make explicit. -/
structure Env where
  hostname : Option String
  pid : Int
  fileOpenFails : Bool
deriving DecidableEq

/-- Write destination of a core: `os.Stdout`, or the rotating file writer
`lumberjack.Logger{Filename: name, MaxSize: maxSize}`. -/
inductive Dest where
  | stdout : Dest
  | file (name : String) (maxSize : Int) : Dest
deriving DecidableEq

/-- Which of the two encoders a core uses. -/
inductive Encoder where
  | json : Encoder
  | console : Encoder
deriving DecidableEq

/-- Model of the Go function `ZapJsonEncoder`: the structured (JSON)
encoder. Its distinguishing configuration (the `"time"` field encoding) is
modelled by `zapJsonEncodeTime` below. -/
def ZapJsonEncoder : Encoder := Encoder.json

/-- Model of the Go function `zapConsoleEncoder`: the console encoder with
a single-space separator, capital colored level labels, and the time layout
`"15:04:05 PM"` modelled by `consoleTimeFormat` below. -/
def zapConsoleEncoder : Encoder := Encoder.console

/-- Structured field value (`zap.String` / `zap.Int`). -/
inductive LogFieldValue where
  | str (s : String) : LogFieldValue
  | int (i : Int) : LogFieldValue
deriving DecidableEq

/-- A structured field (a zap Field): key plus value. -/
structure LogField where
  key : String
  value : LogFieldValue
deriving DecidableEq

/-- A zap core as built by `newZapCore`: destination writer, encoder, and
minimum severity. -/
structure Core where
  dest : Dest
  encoder : Encoder
  level : Int
deriving DecidableEq

/-- The assembled logger handle: the teed list of cores, whether
`zap.AddCaller()` was installed, the threshold passed to
`zap.AddStacktrace`, and the static fields attached with `Logger.With`. -/
structure Logger where
  cores : List Core
  addCaller : Bool
  stacktraceFrom : Option Int
  fields : List LogField
deriving DecidableEq

/-! ## The operations of `logging.go` -/

/-- EncodeTime closure installed by `ZapJsonEncoder`: the Go expression
`int64(math.Trunc(float64(nanos) / float64(time.Millisecond)))`, modelled
exactly. `float64(nanos)` rounds the `int64` nanosecond count to the
nearest binary64 value; `float64(time.Millisecond)` is exactly `1000000`;
the division rounds again to the nearest binary64 value; `math.Trunc`
truncates toward zero and the `int64` conversion is exact. -/
def zapJsonEncodeTime (nanos : Int) : Int :=
  qtrunc (roundDouble ((roundDouble (Q.ofInt nanos)).divByPos 1000000))

/-- Specification-side definition, from the spec's words, for comparison
with `zapJsonEncodeTime`: the nanosecond timestamp divided by 1,000,000,
truncated toward zero, exactly and not rounded. -/
def specExactTruncMillis (nanos : Int) : Int :=
  if 0 ≤ nanos then nanos.fdiv 1000000 else -((-nanos).fdiv 1000000)

/-- Zero-padded two-digit decimal rendering, as produced by the numeric Go
time layout tokens `15`, `04` and `05`. -/
def pad2 (n : Nat) : String := if n < 10 then "0" ++ toString n else toString n

/-- Time rendering of the console encoder: the Go layout `"15:04:05 PM"`
installed by `zapConsoleEncoder` via `zapcore.TimeEncoderOfLayout`, applied
to a local wall-clock time `h:m:s` (`0 ≤ h ≤ 23`). Go layout semantics:
token `15` is the zero-padded 24-hour hour, `04` and `05` the zero-padded
minute and second, and token `PM` renders `"AM"` for hours 0 through 11 and
`"PM"` for hours 12 through 23. -/
def consoleTimeFormat (h m s : Nat) : String :=
  pad2 h ++ ":" ++ pad2 m ++ ":" ++ pad2 s ++ " " ++ (if h < 12 then "AM" else "PM")

/-- Specification-side definition, from the spec's words, for comparison
with `consoleTimeFormat`: a 12-hour clock reading `HH:MM:SS` followed by
the correct AM/PM marker for the time of day. -/
def specTwelveHourClockFormat (h m s : Nat) : String :=
  pad2 (if h % 12 = 0 then 12 else h % 12) ++ ":" ++ pad2 m ++ ":" ++ pad2 s ++ " " ++
    (if h < 12 then "AM" else "PM")

/-- ASCII model of Go `strings.ToUpper`: upper-case every character. It
agrees with Go on all ASCII strings (`Char.toUpper` maps `a`-`z` to
`A`-`Z` and leaves everything else unchanged), in particular on every
letter-casing of the recognized severity names. -/
def goToUpper (s : String) : String := String.mk (s.data.map Char.toUpper)

/-- Body of the `switch strings.ToUpper(logLevel)` statement of
`ZapLogLevelFromString`: first argument is the upper-cased string switched
on, second the original `logLevel` used in the error message. The result
pair mirrors Go's two return values `(zapcore.Level, error)`, the error
being `none` or the `fmt.Errorf("unknown log level: %s", logLevel)`
message. -/
def zapLogLevelFromUpper (u : String) (logLevel : String) : Int × Option String :=
  if u = "DEBUG" then (zapDebugLevel, none)
  else if u = "INFO" then (zapInfoLevel, none)
  else if u = "WARNING" then (zapWarnLevel, none)
  else if u = "ERROR" then (zapErrorLevel, none)
  else if u = "FATAL" then (zapFatalLevel, none)
  else if u = "PANIC" then (zapPanicLevel, none)
  else (-1, some ("unknown log level: " ++ logLevel))

/-- Model of the Go function `ZapLogLevelFromString`: returns the pair of
the zap level and the (optional) error, exactly as the Go function returns
two values. -/
def ZapLogLevelFromString (logLevel : String) : Int × Option String :=
  zapLogLevelFromUpper (goToUpper logLevel) logLevel

/-- Whether an (already upper-cased) string is one of the six recognized
severity names. -/
def severityRecognized (u : String) : Bool :=
  u = "DEBUG" || u = "INFO" || u = "WARNING" || u = "ERROR" || u = "FATAL" || u = "PANIC"

/-- Model of the Go function `attachBaseFields`: attach the `hostname`
field (the literal `"unknown"` when `os.Hostname` fails) and the `pid`
field via `Logger.With`. -/
def attachBaseFields (env : Env) (logger : Logger) : Logger :=
  let host := match env.hostname with
    | some h => h
    | none => "unknown"
  { logger with
    fields := logger.fields ++
      [{ key := "hostname", value := LogFieldValue.str host },
       { key := "pid", value := LogFieldValue.int env.pid }] }

/-- Model of the Go function `newZapCore`: pair the destination with the
console encoder when `prettyLogging` is set and the JSON encoder otherwise,
filtering at `level`. -/
def newZapCore (syncer : Dest) (prettyLogging : Bool) (level : Int) : Core :=
  { dest := syncer
    encoder := if prettyLogging then zapConsoleEncoder else ZapJsonEncoder
    level := level }

/-- Model of the Go function `newZapLogger`: `zap.AddCaller()` is installed
exactly when `debug` is set, `zap.AddStacktrace(zap.ErrorLevel)` is always
installed, and `attachBaseFields` runs exactly when `prettyLogging` is not
set. -/
def newZapLogger (env : Env) (core : List Core) (prettyLogging : Bool) (debug : Bool) : Logger :=
  let logger : Logger :=
    { cores := core, addCaller := debug, stacktraceFrom := some zapErrorLevel, fields := [] }
  if prettyLogging then logger else attachBaseFields env logger

/-- Model of the Go function `New`: a console core on standard output
always, plus a core on the rotating file writer when `enableFileLogging` is
set (with `prettyLogging` hardwired to `false` for that core), teed
together and assembled by `newZapLogger`. `New` returns a logger
unconditionally: the Go signature `func New(params Params) *zap.Logger` has
no error result, and nothing in its body can fail (the rotating writer is a
plain struct literal; no file is opened here). -/
def New (env : Env) (params : Params) : Logger :=
  let cores : List Core :=
    [newZapCore Dest.stdout params.prettyLogging params.level] ++
      (if params.enableFileLogging then
        [newZapCore (Dest.file params.logFileName params.maxSize) false params.level]
      else [])
  newZapLogger env cores params.prettyLogging params.debug

/-- Whether the assembled logger captures a stack trace for a record of
severity `sev`: `zap.AddStacktrace(t)` captures for records at or above
`t`. -/
def stacktraceEnabled (lg : Logger) (sev : Int) : Bool :=
  match lg.stacktraceFrom with
  | none => false
  | some t => decide (t ≤ sev)

/-- Mirror of the Go constant `requestIDField`. -/
def requestIDField : String := "reqId"

/-- Model of the Go function `WithRequestID`: `zap.String(requestIDField, reqID)`. -/
def WithRequestID (reqID : String) : LogField :=
  { key := requestIDField, value := LogFieldValue.str reqID }

/-! ## Shared lemmas -/

/-- Helper: on any string whose upper-casing is not a recognized severity
name, `ZapLogLevelFromString` takes the default branch. -/
theorem zapLogLevel_unrecognized (s : String)
    (h : severityRecognized (goToUpper s) = false) :
    ZapLogLevelFromString s = (-1, some ("unknown log level: " ++ s)) := by
  have h1 : ¬ goToUpper s = "DEBUG" := by
    intro hh; simp [severityRecognized, hh] at h
  have h2 : ¬ goToUpper s = "INFO" := by
    intro hh; simp [severityRecognized, hh] at h
  have h3 : ¬ goToUpper s = "WARNING" := by
    intro hh; simp [severityRecognized, hh] at h
  have h4 : ¬ goToUpper s = "ERROR" := by
    intro hh; simp [severityRecognized, hh] at h
  have h5 : ¬ goToUpper s = "FATAL" := by
    intro hh; simp [severityRecognized, hh] at h
  have h6 : ¬ goToUpper s = "PANIC" := by
    intro hh; simp [severityRecognized, hh] at h
  unfold ZapLogLevelFromString zapLogLevelFromUpper
  rw [if_neg h1, if_neg h2, if_neg h3, if_neg h4, if_neg h5, if_neg h6]

/-- Sanity check of the float64 model on small timestamps, where the Go
computation happens to be exact. -/
theorem zapJsonEncodeTime_small_inputs :
    zapJsonEncodeTime 0 = 0 ∧ zapJsonEncodeTime 999999 = 0 ∧
    zapJsonEncodeTime 1000000 = 1 ∧ zapJsonEncodeTime 1234567 = 1 := by decide

/-! ## The claims -/

/-- Claim C1: the claim states that in structured mode the encoded `time`
field equals `floor(unixNanoTimestamp / 1000000)`, exactly and not rounded,
for every timestamp. The code computes
`int64(math.Trunc(float64(nanos) / float64(time.Millisecond)))`, and the
`float64` conversion rounds the nanosecond count to 53 significant bits
before dividing. At the nanosecond timestamp 1599999999999999999 (one
nanosecond before 2020-09-13 12:26:40 UTC) that rounding bumps the count up
to 1600000000000000000, so the code emits 1600000000000 while exact
truncated division gives 1599999999999: the code contradicts the intended
(and specified) exact truncation. -/
theorem claim_C1_eval :
    zapJsonEncodeTime 1599999999999999999 = 1600000000000 ∧
    specExactTruncMillis 1599999999999999999 = 1599999999999 ∧
    zapJsonEncodeTime 1599999999999999999 ≠ specExactTruncMillis 1599999999999999999 := by
  decide

/-- Claim C2: for every string whose upper-casing is one of the six
recognized names, `ZapLogLevelFromString` returns the corresponding zap
severity with no error (so the result agrees across all casings of the
same name), and for every other string it returns an error carrying the
offending string. -/
theorem claim_C2 (s : String) :
    (goToUpper s = "DEBUG" → ZapLogLevelFromString s = (zapDebugLevel, none)) ∧
    (goToUpper s = "INFO" → ZapLogLevelFromString s = (zapInfoLevel, none)) ∧
    (goToUpper s = "WARNING" → ZapLogLevelFromString s = (zapWarnLevel, none)) ∧
    (goToUpper s = "ERROR" → ZapLogLevelFromString s = (zapErrorLevel, none)) ∧
    (goToUpper s = "FATAL" → ZapLogLevelFromString s = (zapFatalLevel, none)) ∧
    (goToUpper s = "PANIC" → ZapLogLevelFromString s = (zapPanicLevel, none)) ∧
    (∀ t : String, goToUpper t = goToUpper s → severityRecognized (goToUpper s) = true →
      ZapLogLevelFromString t = ZapLogLevelFromString s) ∧
    (severityRecognized (goToUpper s) = false →
      ZapLogLevelFromString s = (-1, some ("unknown log level: " ++ s))) := by
  refine ⟨?_, ?_, ?_, ?_, ?_, ?_, ?_, zapLogLevel_unrecognized s⟩
  · intro h; unfold ZapLogLevelFromString; rw [h]; rfl
  · intro h; unfold ZapLogLevelFromString; rw [h]; rfl
  · intro h; unfold ZapLogLevelFromString; rw [h]; rfl
  · intro h; unfold ZapLogLevelFromString; rw [h]; rfl
  · intro h; unfold ZapLogLevelFromString; rw [h]; rfl
  · intro h; unfold ZapLogLevelFromString; rw [h]; rfl
  · intro t ht hrec
    unfold ZapLogLevelFromString
    rw [ht]
    by_cases h1 : goToUpper s = "DEBUG"
    · rw [h1]; rfl
    by_cases h2 : goToUpper s = "INFO"
    · rw [h2]; rfl
    by_cases h3 : goToUpper s = "WARNING"
    · rw [h3]; rfl
    by_cases h4 : goToUpper s = "ERROR"
    · rw [h4]; rfl
    by_cases h5 : goToUpper s = "FATAL"
    · rw [h5]; rfl
    by_cases h6 : goToUpper s = "PANIC"
    · rw [h6]; rfl
    simp [severityRecognized, h1, h2, h3, h4, h5, h6] at hrec

/-- Claim C2 witness: the theorem applied at the concrete casing
`"Debug"` of a recognized name and at the concrete unrecognized string
`"bogus"`. -/
theorem claim_C2_witness :
    ZapLogLevelFromString "Debug" = (zapDebugLevel, none) ∧
    ZapLogLevelFromString "bogus" = (-1, some "unknown log level: bogus") := by
  refine ⟨(claim_C2 "Debug").1 (by decide), ?_⟩
  exact (claim_C2 "bogus").2.2.2.2.2.2.2 (by decide)

/-- Claim C3: `New` builds exactly one core (standard output) when file
logging is disabled and exactly two when it is enabled; the file core
always uses the structured (JSON) encoder regardless of the pretty flag;
and every core filters at the configured minimum severity. -/
theorem claim_C3 (env : Env) (p : Params) :
    ((New env p).cores.length = if p.enableFileLogging then 2 else 1) ∧
    ((New env p).cores.head? = some (newZapCore Dest.stdout p.prettyLogging p.level)) ∧
    (p.enableFileLogging = true →
      (New env p).cores =
        [newZapCore Dest.stdout p.prettyLogging p.level,
         { dest := Dest.file p.logFileName p.maxSize, encoder := ZapJsonEncoder,
           level := p.level }]) ∧
    (∀ c : Core, c ∈ (New env p).cores → c.level = p.level) := by
  have hc : (New env p).cores =
      [newZapCore Dest.stdout p.prettyLogging p.level] ++
        (if p.enableFileLogging then
          [newZapCore (Dest.file p.logFileName p.maxSize) false p.level]
        else []) := by
    cases hp : p.prettyLogging <;>
      simp [New, newZapLogger, attachBaseFields, hp]
  refine ⟨?_, ?_, ?_, ?_⟩
  · rw [hc]; cases hf : p.enableFileLogging <;> simp [hf]
  · rw [hc]; simp
  · intro hf; rw [hc, hf]; simp [newZapCore]
  · intro c hcm
    rw [hc] at hcm
    cases hf : p.enableFileLogging
    · rw [hf] at hcm
      simp at hcm
      rw [hcm]; rfl
    · rw [hf] at hcm
      simp at hcm
      rcases hcm with h | h <;> rw [h] <;> rfl

/-- Claim C3 witness: the theorem applied at a concrete environment and a
concrete configuration with file logging enabled and pretty printing on. -/
theorem claim_C3_witness :
    (New { hostname := some "h", pid := 7, fileOpenFails := false }
        { prettyLogging := true, debug := false, level := 3, enableFileLogging := true,
          logFileName := "a.log", maxSize := 10 }).cores =
      [newZapCore Dest.stdout true 3,
       { dest := Dest.file "a.log" 10, encoder := ZapJsonEncoder, level := 3 }] ∧
    (newZapCore Dest.stdout true 3).level = 3 := by
  have h := claim_C3 { hostname := some "h", pid := 7, fileOpenFails := false }
    { prettyLogging := true, debug := false, level := 3, enableFileLogging := true,
      logFileName := "a.log", maxSize := 10 }
  refine ⟨h.2.2.1 rfl, h.2.2.2 (newZapCore Dest.stdout true 3) ?_⟩
  rw [h.2.2.1 rfl]
  exact List.mem_cons_self _ _

/-- Claim C4 counterexample: the claim states that the levels returned by
the severity mapper satisfy `level FATAL < level PANIC`; in the code
`FATAL` maps to `zapcore.FatalLevel = 5` and `PANIC` to
`zapcore.PanicLevel = 4`, so that inequality fails. -/
theorem claim_C4_counterexample :
    ¬ ((ZapLogLevelFromString "FATAL").1 < (ZapLogLevelFromString "PANIC").1) := by decide

/-- Claim C4 amended: the severity mapper is strictly monotone with
respect to zap's severity order, in which PANIC and FATAL are swapped
relative to the spec's order: `DEBUG < INFO < WARNING < ERROR < PANIC <
FATAL`. -/
theorem claim_C4_amended :
    (ZapLogLevelFromString "DEBUG").1 < (ZapLogLevelFromString "INFO").1 ∧
    (ZapLogLevelFromString "INFO").1 < (ZapLogLevelFromString "WARNING").1 ∧
    (ZapLogLevelFromString "WARNING").1 < (ZapLogLevelFromString "ERROR").1 ∧
    (ZapLogLevelFromString "ERROR").1 < (ZapLogLevelFromString "PANIC").1 ∧
    (ZapLogLevelFromString "PANIC").1 < (ZapLogLevelFromString "FATAL").1 := by decide

/-- Claim C5: with `prettyLogging = false` the assembled logger attaches
exactly the `hostname` field (value `"unknown"` when the hostname lookup
fails, the failure never being surfaced) and the `pid` field; with
`prettyLogging = true` it attaches neither. -/
theorem claim_C5 (env : Env) (p : Params) :
    (New env p).fields =
      if p.prettyLogging then []
      else
        [{ key := "hostname", value := LogFieldValue.str (env.hostname.getD "unknown") },
         { key := "pid", value := LogFieldValue.int env.pid }] := by
  cases hp : p.prettyLogging <;> cases hh : env.hostname <;>
    simp [New, newZapLogger, attachBaseFields, hp, hh]

/-- Claim C6: the assembled logger enables call-site capture if and only
if the debug flag is set, and enables stack-trace capture exactly for
records at `zapcore.ErrorLevel` or above, for every configuration. -/
theorem claim_C6 (env : Env) (p : Params) :
    (New env p).addCaller = p.debug ∧
    (New env p).stacktraceFrom = some zapErrorLevel ∧
    (∀ sev : Int, stacktraceEnabled (New env p) sev = decide (zapErrorLevel ≤ sev)) := by
  cases hp : p.prettyLogging <;>
    simp [New, newZapLogger, attachBaseFields, stacktraceEnabled, hp]

/-- Claim C7: the claim states that the console encoder renders every
timestamp as a 12-hour clock reading followed by the AM/PM marker. The
code installs the Go layout `"15:04:05 PM"`, whose hour token `15` is the
24-hour hour: at local time 13:05:09 the code renders `"13:05:09 PM"`
while a 12-hour clock reads `"01:05:09 PM"` — the code mixes a 24-hour
hour with a meridiem marker, contradicting the intended 12-hour format. -/
theorem claim_C7_eval :
    consoleTimeFormat 13 5 9 = "13:05:09 PM" ∧
    specTwelveHourClockFormat 13 5 9 = "01:05:09 PM" ∧
    consoleTimeFormat 13 5 9 ≠ specTwelveHourClockFormat 13 5 9 := by decide

/-- Claim C8 counterexample: the claim states that a failure to open or
create the log file surfaces from `New` as an error result. `New` has no
error result (`func New(params Params) *zap.Logger`), never opens the
file (the rotating writer opens lazily at first write), and returns the
very same two-core logger whether or not opening the configured log file
would fail: the failure is silently invisible to `New`'s caller, not
surfaced. -/
theorem claim_C8_counterexample :
    New { hostname := some "h", pid := 1, fileOpenFails := true }
        { prettyLogging := false, debug := false, level := 0, enableFileLogging := true,
          logFileName := "a.log", maxSize := 10 } =
      New { hostname := some "h", pid := 1, fileOpenFails := false }
        { prettyLogging := false, debug := false, level := 0, enableFileLogging := true,
          logFileName := "a.log", maxSize := 10 } ∧
    (New { hostname := some "h", pid := 1, fileOpenFails := true }
        { prettyLogging := false, debug := false, level := 0, enableFileLogging := true,
          logFileName := "a.log", maxSize := 10 }).cores.length = 2 := by
  exact ⟨rfl, rfl⟩

/-- Claim C8 amended: `New` cannot surface a file-open failure: its result
type has no error alternative, and its output is identical whether or not
opening the configured log file would fail (the rotating file writer
defers opening the file to the first write, outside of `New`). -/
theorem claim_C8_amended (h : Option String) (pid : Int) (b bf : Bool) (p : Params) :
    New { hostname := h, pid := pid, fileOpenFails := b } p =
      New { hostname := h, pid := pid, fileOpenFails := bf } p := rfl

/-- Claim C9: `WithRequestID` returns a single structured field with key
exactly `"reqId"` and value exactly the given string; as a Lean function
of its argument alone it is pure and deterministic. -/
theorem claim_C9 (reqID : String) :
    WithRequestID reqID = { key := "reqId", value := LogFieldValue.str reqID } := rfl

/-- Claim C10: for every unrecognized input the severity mapper returns
the level value `-1` alongside its error, and `-1` is exactly
`zapcore.DebugLevel`, so a caller that ignores the error obtains the DEBUG
severity rather than a distinguished invalid value. -/
theorem claim_C10 (s : String)
    (h : severityRecognized (goToUpper s) = false) :
    (ZapLogLevelFromString s).1 = -1 ∧
    (ZapLogLevelFromString s).1 = zapDebugLevel ∧
    (ZapLogLevelFromString s).2 = some ("unknown log level: " ++ s) := by
  rw [zapLogLevel_unrecognized s h]
  exact ⟨rfl, rfl, rfl⟩

/-- Claim C10 witness: the theorem applied at the concrete unrecognized
string `"verbose"`. -/
theorem claim_C10_witness :
    (ZapLogLevelFromString "verbose").1 = -1 ∧
    (ZapLogLevelFromString "verbose").1 = zapDebugLevel ∧
    (ZapLogLevelFromString "verbose").2 = some "unknown log level: verbose" := by
  exact claim_C10 "verbose" (by decide)
